import Mathlib

/-!
Verification of the notebook-mcp npm bootstrap launcher.

The development shallowly embeds the two JavaScript source files
(src/npm/lib/launcher.js and src/npm/bin/notebook-mcp.js).  Effects are made
explicit:

* the process environment is a lookup function from variable names to
  optional string values;
* each call to which.sync is answered by an oracle from candidate name to a
  probe result (the library either returns a path or throws);
* each call to spawnSync is answered, in call order, by an oracle from the
  call index to a SpawnResult, and a trace of spawned command lines is
  accumulated so claims about which child processes run can be stated;
* the single asynchronous spawn of the backend is summarised by a
  BackendOutcome value (spawn error, or the pair carried by the exit event);
* thrown JavaScript errors become an Except error branch.
-/

namespace NotebookMcp

/-- A process environment: variable name to value, none when unset. -/
abbrev Env := String → Option String

/-- Reading an environment variable under JavaScript truthiness: a variable
set to the empty string behaves like an unset one in every `if (v)` and
`v || d` in the source. -/
def envTruthy (env : Env) (k : String) : Option String :=
  match env k with
  | some v => if v = "" then none else some v
  | none => none

/-- The JavaScript idiom `process.env[k] || d`. -/
def envOrDefault (env : Env) (k d : String) : String :=
  (envTruthy env k).getD d

/-- Outcome of one which.sync call: the library throws when the candidate is
not resolvable, otherwise returns the resolved path string. -/
inductive ProbeResult where
  | threw : ProbeResult
  | found : String → ProbeResult
deriving Repr, DecidableEq

/-- The fixed candidate list from findPython (launcher.js line 9). -/
def candidates : List String := ["python", "python3", "py"]

/-- A probe attempt that does not yield a usable path: which.sync threw, or
returned a falsy (empty) string, so the loop in findPython moves on. -/
def probeFails : ProbeResult → Prop
  | .threw => True
  | .found p => p = ""

instance : DecidablePred probeFails := fun r =>
  match r with
  | .threw => isTrue trivial
  | .found p => inferInstanceAs (Decidable (p = ""))

/-- The candidate loop of findPython (launcher.js lines 10-17), instrumented
with the list of candidates actually probed.  Each iteration calls
which.sync; a throw is swallowed, a truthy return value is returned at
once and the remaining candidates are never probed. -/
def probeLoop (which : String → ProbeResult) : List String → Option String × List String
  | [] => (none, [])
  | c :: rest =>
    match which c with
    | .found p =>
      if p = "" then
        let r := probeLoop which rest
        (r.fst, c :: r.snd)
      else
        (some p, [c])
    | .threw =>
      let r := probeLoop which rest
      (r.fst, c :: r.snd)

/-- Embedding of findPython (launcher.js lines 5-19), instrumented with the
list of PATH probes performed.  A truthy NOTEBOOK_MCP_PYTHON value is
returned unconditionally with no probing; otherwise the candidate list is
scanned and null (none) is returned when nothing resolves. -/
def findPythonTr (env : Env) (which : String → ProbeResult) :
    Option String × List String :=
  match envTruthy env "NOTEBOOK_MCP_PYTHON" with
  | some explicit => (some explicit, [])
  | none => probeLoop which candidates

/-- The value findPython returns to its caller. -/
def findPython (env : Env) (which : String → ProbeResult) : Option String :=
  (findPythonTr env which).fst

theorem probeLoop_all_fail (which : String → ProbeResult) :
    ∀ l : List String, (∀ c ∈ l, probeFails (which c)) →
      probeLoop which l = (none, l) := by
  intro l
  induction l with
  | nil => intro _; rfl
  | cons c rest ih =>
    intro h
    have hc := h c (List.mem_cons_self c rest)
    have hrest := ih fun c' hc' => h c' (List.mem_cons_of_mem c hc')
    cases hwc : which c with
    | threw => simp [probeLoop, hwc, hrest]
    | found p =>
      have hp : p = "" := by
        have := hc
        rw [hwc] at this
        exact this
      simp [probeLoop, hwc, hp, hrest]

theorem probeLoop_first_success (which : String → ProbeResult)
    (l₁ : List String) (c : String) (l₂ : List String) (p : String)
    (hfail : ∀ c' ∈ l₁, probeFails (which c'))
    (hsucc : which c = .found p) (hp : p ≠ "") :
    probeLoop which (l₁ ++ c :: l₂) = (some p, l₁ ++ [c]) := by
  induction l₁ with
  | nil => simp [probeLoop, hsucc, hp]
  | cons a l₁ ih =>
    have ha := hfail a (List.mem_cons_self a l₁)
    have hrest := ih fun c' hc' => hfail c' (List.mem_cons_of_mem a hc')
    cases hwa : which a with
    | threw => simp [probeLoop, hwa, hrest]
    | found q =>
      have hq : q = "" := by
        have := ha
        rw [hwa] at this
        exact this
      simp [probeLoop, hwa, hq, hrest]

/-- Result object of one spawnSync call: the fields the source inspects.
error is set when the child could not be started at all; status is the
numeric exit code, or null (none) when the child was terminated by a
signal. -/
structure SpawnResult where
  error : Option String
  status : Option Int
deriving Repr, DecidableEq

/-- A spawned command line: executable plus argument list. -/
structure Cmd where
  cmd : String
  args : List String
deriving Repr, DecidableEq

/-- State threaded through the synchronous spawns: an oracle answering the
n-th spawnSync call, the number of calls made so far, and the trace of
command lines spawned. -/
structure SpawnState where
  oracle : Nat → SpawnResult
  count : Nat
  trace : List Cmd

/-- The spawn state at launcher start: no child process has been spawned. -/
def initState (oracle : Nat → SpawnResult) : SpawnState :=
  { oracle := oracle, count := 0, trace := [] }

/-- One spawnSync call: record the command line and consume the next oracle
answer. -/
def spawnSyncM (c : String) (args : List String) (st : SpawnState) :
    SpawnResult × SpawnState :=
  (st.oracle st.count,
   { st with count := st.count + 1, trace := st.trace ++ [⟨c, args⟩] })

/-- A thrown JavaScript error as the launcher produces them: either the raw
error object from a failed spawn, or an Error built from a message, with the
optional exitCode property the source attaches. -/
inductive JsError where
  | raw : String → JsError
  | err : String → Option Int → JsError
deriving Repr, DecidableEq

/-- Message text of a thrown error, as printed by the entry script (the
printed stack begins with this message). -/
def errMessage : JsError → String
  | .raw m => m
  | .err m _ => m

/-- The JavaScript `args.join(" ")`. -/
def joinSpace : List String → String
  | [] => ""
  | [a] => a
  | a :: b :: rest => a ++ " " ++ joinSpace (b :: rest)

/-- Embedding of runChecked (launcher.js lines 21-29): spawn, rethrow a
spawn error, and throw a described error when the status is a number other
than zero.  A null status (signal kill) takes neither branch and the call
returns normally. -/
def runChecked (cmd : String) (args : List String) (st : SpawnState) :
    Except JsError Unit × SpawnState :=
  let (res, st) := spawnSyncM cmd args st
  match res.error with
  | some e => (.error (.raw e), st)
  | none =>
    match res.status with
    | some n =>
      if n ≠ 0 then
        (.error (.err (cmd ++ " " ++ joinSpace args ++ " exited with code " ++ toString n)
            (some n)), st)
      else
        (.ok (), st)
    | none => (.ok (), st)

/-- Embedding of canImportNotebookMcp (launcher.js lines 31-34): probe the
interpreter with a minimal import and report whether the status is exactly
zero. -/
def canImportNotebookMcp (python : String) (st : SpawnState) : Bool × SpawnState :=
  let (res, st) := spawnSyncM python ["-c", "import notebook_mcp"] st
  (res.status == some 0, st)

/-- Splitting a character list at every separator character, keeping empty
pieces, exactly as JavaScript String.split with a one-character separator
cuts a string. -/
def splitChars (sep : Char → Bool) : List Char → List (List Char)
  | [] => [[]]
  | c :: rest =>
    match splitChars sep rest with
    | [] => [[]]
    | t :: ts => if sep c then [] :: t :: ts else (c :: t) :: ts

/-- The split-and-filter applied to NOTEBOOK_MCP_PIP_ARGS (launcher.js
line 40): JavaScript String.split(" ") cuts at each space character, and
filter(Boolean) drops the empty tokens. -/
def splitPipArgs (s : String) : List String :=
  ((splitChars (· = ' ') s.data).map fun cs => String.mk cs).filter (· ≠ "")

/-- Modelled from the spec words "whitespace-split, empty tokens discarded":
the reading of the extra-argument split in which any whitespace character
separates tokens.  Stated only for comparison with splitPipArgs, which is
what the source does. -/
def splitPipArgsSpecReading (s : String) : List String :=
  ((splitChars Char.isWhitespace s.data).map fun cs => String.mk cs).filter (· ≠ "")

/-- Message of the error thrown when the package is still not importable
after a nominally successful install (launcher.js lines 46-49). -/
def postInstallMsg : String :=
  "Installed notebook-mcp but it is still not importable. " ++
    "Check that your Python environment is the one you expect (NOTEBOOK_MCP_PYTHON)."

/-- The import-probe command line ensureInstalled spawns. -/
def importProbeCmd (python : String) : Cmd :=
  ⟨python, ["-c", "import notebook_mcp"]⟩

/-- The pip install command line ensureInstalled spawns when the probe
failed, as determined by the environment. -/
def pipInstallCmd (env : Env) (python : String) : Cmd :=
  ⟨python,
   ["-m", "pip", "install", "-U", envOrDefault env "NOTEBOOK_MCP_PIP_SPEC" "notebook-mcp"] ++
     splitPipArgs (envOrDefault env "NOTEBOOK_MCP_PIP_ARGS" "")⟩

/-- Embedding of ensureInstalled (launcher.js lines 36-51): probe, return
early on success, otherwise run the pip install through runChecked and
re-probe, throwing when the package is still not importable. -/
def ensureInstalled (env : Env) (python : String) (st : SpawnState) :
    Except JsError Unit × SpawnState :=
  let (ok1, st) := canImportNotebookMcp python st
  if ok1 then
    (.ok (), st)
  else
    let spec := envOrDefault env "NOTEBOOK_MCP_PIP_SPEC" "notebook-mcp"
    let extraArgs := splitPipArgs (envOrDefault env "NOTEBOOK_MCP_PIP_ARGS" "")
    match runChecked python (["-m", "pip", "install", "-U", spec] ++ extraArgs) st with
    | (.error e, st) => (.error e, st)
    | (.ok (), st) =>
      let (ok2, st) := canImportNotebookMcp python st
      if ok2 then
        (.ok (), st)
      else
        (.error (.err postInstallMsg none), st)

/-- Message of the error thrown when no interpreter was found (launcher.js
lines 56-59). -/
def pythonNotFoundMsg : String :=
  "Python was not found on PATH. Install Python 3.11+ and ensure `python` is available, " ++
    "or set NOTEBOOK_MCP_PYTHON to the full path of your python executable."

/-- Outcome of the asynchronous backend spawn: either the error event fired
because the child could not start, or the exit event fired with its
(code, signal) pair — code is null exactly when the child died by signal. -/
inductive BackendOutcome where
  | spawnError : String → BackendOutcome
  | exited : Option Int → Option String → BackendOutcome

/-- The JavaScript `code || 0` applied to the nullable exit code. -/
def jsOrZero : Option Int → Int
  | none => 0
  | some n => if n = 0 then 0 else n

/-- Embedding of launch (launcher.js lines 53-81): resolve an interpreter
(throwing when none is found), ensure the package is installed, spawn the
backend and translate its outcome.  The returned triple is the settled
promise (exit code on fulfilment, thrown error on rejection), the spawn
state after the synchronous children, and the backend command line when the
backend spawn was reached (none when launch threw before spawning it). -/
def launch (env : Env) (which : String → ProbeResult) (be : BackendOutcome)
    (argv : List String) (st : SpawnState) :
    Except JsError Int × SpawnState × Option Cmd :=
  match findPython env which with
  | none => (.error (.err pythonNotFoundMsg none), st, none)
  | some python =>
    match ensureInstalled env python st with
    | (.error e, st) => (.error e, st, none)
    | (.ok (), st) =>
      let child : Cmd := ⟨python, ["-m", "notebook_mcp.server"] ++ argv⟩
      match be with
      | .spawnError m => (.error (.raw m), st, some child)
      | .exited code signal =>
        match signal with
        | some s =>
          if s = "" then (.ok (jsOrZero code), st, some child)
          else
            (.error (.err ("notebook-mcp exited due to signal " ++ s) (some 1)), st,
             some child)
        | none => (.ok (jsOrZero code), st, some child)

/-- Embedding of the entry script bin/notebook-mcp.js: it attaches only a
catch handler to the launch promise, printing the error text and exiting
with status 1 on rejection.  On fulfilment the resolved value is discarded —
no then handler reads it and process.exitCode is never set — so the Node
process drains its event loop and exits with the default status 0.  The
result is the launcher process's exit status and what it wrote to stderr. -/
def binMain (env : Env) (which : String → ProbeResult) (be : BackendOutcome)
    (argv : List String) (st : SpawnState) : Int × Option String :=
  match launch env which be argv st with
  | (.ok _, _, _) => (0, none)
  | (.error e, _, _) => (1, some (errMessage e ++ "\n"))

/-- Helper: launch rethrows an ensureInstalled error before spawning the
backend. -/
theorem launch_of_ensure_error (env : Env) (which : String → ProbeResult)
    (be : BackendOutcome) (argv : List String) (st : SpawnState)
    (py : String) (e : JsError) (st' : SpawnState)
    (hpy : findPython env which = some py)
    (hE : ensureInstalled env py st = (.error e, st')) :
    launch env which be argv st = (.error e, st', none) := by
  unfold launch
  rw [hpy]
  simp [hE]

/-- Helper: with an interpreter found and the install step succeeding, a
backend exit event carrying a non-empty signal makes launch reject with the
generic exitCode 1 error naming the signal. -/
theorem launch_of_signal (env : Env) (which : String → ProbeResult)
    (argv : List String) (st : SpawnState) (py : String) (st' : SpawnState)
    (code : Option Int) (s : String)
    (hpy : findPython env which = some py)
    (hE : ensureInstalled env py st = (.ok (), st'))
    (hs : s ≠ "") :
    launch env which (.exited code (some s)) argv st =
      (.error (.err ("notebook-mcp exited due to signal " ++ s) (some 1)), st',
       some ⟨py, ["-m", "notebook_mcp.server"] ++ argv⟩) := by
  unfold launch
  rw [hpy]
  simp [hE, hs]

/-- Helper: the entry script exits 1 and prints the error text whenever the
launch promise rejects. -/
theorem binMain_of_launch_error (env : Env) (which : String → ProbeResult)
    (be : BackendOutcome) (argv : List String) (st : SpawnState)
    (e : JsError) (stx : SpawnState) (c : Option Cmd)
    (hL : launch env which be argv st = (.error e, stx, c)) :
    binMain env which be argv st = (1, some (errMessage e ++ "\n")) := by
  unfold binMain
  rw [hL]

/-! Concrete environments, probe oracles and spawn oracles used to evaluate
the development on closed inputs. -/

/-- Environment with the interpreter override set to a non-empty path. -/
def envOverride : Env := fun k =>
  if k = "NOTEBOOK_MCP_PYTHON" then some "/usr/bin/python3" else none

/-- Environment with the interpreter override set to the empty string. -/
def envEmptyOverride : Env := fun k =>
  if k = "NOTEBOOK_MCP_PYTHON" then some "" else none

/-- Environment with no launcher variable set. -/
def envNone : Env := fun _ => none

/-- Environment with the override set and extra pip arguments containing a
tab character. -/
def envTab : Env := fun k =>
  if k = "NOTEBOOK_MCP_PYTHON" then some "/usr/bin/python3"
  else if k = "NOTEBOOK_MCP_PIP_ARGS" then some "a\tb" else none

/-- Environment configuring a custom package spec and two extra pip
arguments separated by runs of spaces. -/
def envPipCfg : Env := fun k =>
  if k = "NOTEBOOK_MCP_PIP_SPEC" then some "custom-pkg==1.2"
  else if k = "NOTEBOOK_MCP_PIP_ARGS" then some " --no-cache-dir  --quiet " else none

/-- Probe oracle on which no candidate resolves. -/
def whichNone : String → ProbeResult := fun _ => .threw

/-- Probe oracle on which only the first candidate resolves. -/
def whichPy : String → ProbeResult := fun c =>
  if c = "python" then .found "/usr/bin/python" else .threw

/-- Probe oracle on which only the second candidate resolves. -/
def whichPy3 : String → ProbeResult := fun c =>
  if c = "python3" then .found "/usr/bin/python3" else .threw

/-- Spawn oracle on which every synchronous child exits 0. -/
def oracleAllOk : Nat → SpawnResult := fun _ => ⟨none, some 0⟩

/-- Spawn oracle on which the first probe exits 1 and every later child
exits 0 (install needed and successful). -/
def oracleProbeFail : Nat → SpawnResult := fun n =>
  if n = 0 then ⟨none, some 1⟩ else ⟨none, some 0⟩

/-- Spawn oracle on which the probe exits 1 and the install command exits
3. -/
def oracleInstallFail3 : Nat → SpawnResult := fun n =>
  if n = 0 then ⟨none, some 1⟩ else ⟨none, some 3⟩

/-- Spawn oracle on which the probe exits 1 and every later child exits 1
as well (install succeeds as a process but the package stays
unimportable is modelled by oracleInstallOkStillFails below). -/
def oracleAllFail : Nat → SpawnResult := fun _ => ⟨none, some 1⟩

/-- Spawn oracle on which the probe exits 1, the install command exits 0,
and the re-probe exits 1 again. -/
def oracleInstallOkStillFails : Nat → SpawnResult := fun n =>
  if n = 1 then ⟨none, some 0⟩ else ⟨none, some 1⟩

/-- Spawn oracle on which the probe exits 1 and the install command is
killed by a signal: spawnSync reports no error and a null status. -/
def oracleInstallKilled : Nat → SpawnResult := fun n =>
  if n = 0 then ⟨none, some 1⟩ else if n = 1 then ⟨none, none⟩ else ⟨none, some 1⟩

/-! Claim C2 — the interpreter override. -/

/-- C2 counterexample: the claim quantifies over every value of
NOTEBOOK_MCP_PYTHON, but the source guards the override with a JavaScript
truthiness test, so an environment that sets the variable to the empty
string is not returned unchanged: with python resolvable on PATH,
findPython probes PATH and returns the probed path instead of the set
value. -/
theorem c2_counterexample :
    envEmptyOverride "NOTEBOOK_MCP_PYTHON" = some "" ∧
    findPython envEmptyOverride whichPy = some "/usr/bin/python" ∧
    findPython envEmptyOverride whichPy ≠ some "" ∧
    (findPythonTr envEmptyOverride whichPy).snd = ["python"] := by
  refine ⟨rfl, rfl, by decide, rfl⟩

/-- C2 (amended): for every environment in which NOTEBOOK_MCP_PYTHON is set
to a non-empty value, findPython returns that value unchanged, regardless
of the PATH probe oracle, and performs no PATH probe at all. -/
theorem c2_override_returned_unchanged (env : Env) (which : String → ProbeResult)
    (v : String) (hset : env "NOTEBOOK_MCP_PYTHON" = some v) (hv : v ≠ "") :
    findPythonTr env which = (some v, []) ∧ findPython env which = some v := by
  have h : findPythonTr env which = (some v, []) := by
    unfold findPythonTr envTruthy
    rw [hset]
    simp [hv]
  exact ⟨h, by rw [findPython, h]⟩

/-- C2 witness: the amended theorem evaluated with the override set to a
concrete path and no candidate resolvable on PATH. -/
theorem c2_witness :
    findPythonTr envOverride whichNone = (some "/usr/bin/python3", []) ∧
    findPython envOverride whichNone = some "/usr/bin/python3" :=
  c2_override_returned_unchanged envOverride whichNone "/usr/bin/python3" rfl (by decide)

/-! Claim C6 — candidate probing order. -/

/-- C6: with the override unset (or empty), if every candidate before c
fails to probe (which.sync threw or returned a falsy path) and c probes to
a non-empty path p, findPython returns p, and the probe trace stops at c:
the failures are swallowed and the candidates after c are never probed.
The selection is a pure function of the environment and probe oracle, hence
deterministic. -/
theorem c6_first_resolvable_candidate_wins (env : Env) (which : String → ProbeResult)
    (l₁ l₂ : List String) (c p : String)
    (hov : envTruthy env "NOTEBOOK_MCP_PYTHON" = none)
    (hsplit : candidates = l₁ ++ c :: l₂)
    (hfail : ∀ c' ∈ l₁, probeFails (which c'))
    (hsucc : which c = .found p) (hp : p ≠ "") :
    findPythonTr env which = (some p, l₁ ++ [c]) := by
  unfold findPythonTr
  rw [hov, hsplit]
  exact probeLoop_first_success which l₁ c l₂ p hfail hsucc hp

/-- C6 witness: with no override, the first candidate throwing and the
second resolving, findPython returns the second candidate's path and never
probes the third candidate. -/
theorem c6_witness :
    findPythonTr envNone whichPy3 = (some "/usr/bin/python3", ["python", "python3"]) :=
  c6_first_resolvable_candidate_wins envNone whichPy3 ["python"] ["py"] "python3"
    "/usr/bin/python3" rfl rfl (by decide) rfl (by decide)

/-! Claim C8 — no interpreter found. -/

/-- C8: with the override unset (or empty) and every candidate failing to
probe, findPython reports the absence as the value none rather than
throwing, and the launcher exits with status 1 after writing the fatal
message, which names NOTEBOOK_MCP_PYTHON, states the minimum supported
version 3.11+, and instructs the operator to set the override. -/
theorem c8_no_interpreter_exits_one (env : Env) (which : String → ProbeResult)
    (be : BackendOutcome) (argv : List String) (oracle : Nat → SpawnResult)
    (hov : envTruthy env "NOTEBOOK_MCP_PYTHON" = none)
    (hfail : ∀ c ∈ candidates, probeFails (which c)) :
    findPython env which = none ∧
    binMain env which be argv (initState oracle) = (1, some (pythonNotFoundMsg ++ "\n")) ∧
    (∃ a b : String, pythonNotFoundMsg = a ++ "NOTEBOOK_MCP_PYTHON" ++ b) ∧
    (∃ a b : String, pythonNotFoundMsg = a ++ "3.11+" ++ b) ∧
    (∃ a b : String, pythonNotFoundMsg = a ++ "set NOTEBOOK_MCP_PYTHON" ++ b) := by
  have hnone : findPython env which = none := by
    unfold findPython findPythonTr
    rw [hov, probeLoop_all_fail which candidates hfail]
  refine ⟨hnone, ?_, ?_, ?_, ?_⟩
  · unfold binMain launch
    rw [hnone]
    rfl
  · exact ⟨"Python was not found on PATH. Install Python 3.11+ and ensure `python` is available, or set ",
      " to the full path of your python executable.", by decide⟩
  · exact ⟨"Python was not found on PATH. Install Python ",
      " and ensure `python` is available, or set NOTEBOOK_MCP_PYTHON to the full path of your python executable.",
      by decide⟩
  · exact ⟨"Python was not found on PATH. Install Python 3.11+ and ensure `python` is available, or ",
      " to the full path of your python executable.", by decide⟩

/-- C8 witness: the theorem evaluated with an empty environment, no
resolvable candidate, and an arbitrary backend outcome. -/
theorem c8_witness :
    findPython envNone whichNone = none ∧
    binMain envNone whichNone (.exited (some 0) none) [] (initState oracleAllOk) =
      (1, some (pythonNotFoundMsg ++ "\n")) ∧
    (∃ a b : String, pythonNotFoundMsg = a ++ "NOTEBOOK_MCP_PYTHON" ++ b) ∧
    (∃ a b : String, pythonNotFoundMsg = a ++ "3.11+" ++ b) ∧
    (∃ a b : String, pythonNotFoundMsg = a ++ "set NOTEBOOK_MCP_PYTHON" ++ b) :=
  c8_no_interpreter_exits_one envNone whichNone (.exited (some 0) none) [] oracleAllOk
    rfl (by decide)

/-! Claim C1 — exit-code propagation. -/

/-- C1: the claim fails on the code.  With the backend exiting normally
with code 5, the launch promise does resolve with 5 (the Process Supervisor
half of the claim), but the entry script attaches only a catch handler, so
the fulfilled value is discarded and the launcher process exits with the
Node default status 0, not 5. -/
theorem c1_backend_exit_code_dropped :
    (launch envOverride whichNone (.exited (some 5) none) [] (initState oracleAllOk)).fst =
      .ok 5 ∧
    binMain envOverride whichNone (.exited (some 5) none) [] (initState oracleAllOk) =
      (0, none) ∧
    (0 : Int) ≠ 5 := by
  refine ⟨rfl, rfl, by decide⟩

/-! Claim C7 — happy path performs no install. -/

/-- Helper: when the first import probe exits 0, ensureInstalled returns
successfully after exactly one spawn, the probe itself. -/
theorem ensureInstalled_probe_ok_eq (env : Env) (py : String)
    (oracle : Nat → SpawnResult) (h0 : (oracle 0).status = some 0) :
    ensureInstalled env py (initState oracle) =
      (.ok (), { oracle := oracle, count := 1, trace := [importProbeCmd py] }) := by
  unfold ensureInstalled canImportNotebookMcp spawnSyncM initState
  simp [h0, importProbeCmd]

/-- C7: when the initial import probe exits 0, the Dependency Ensurer
returns without error and the resulting trace is exactly the probe command:
zero install invocations, so no pip child process is ever spawned on this
path. -/
theorem c7_probe_ok_no_install (env : Env) (py : String) (oracle : Nat → SpawnResult)
    (h0 : (oracle 0).status = some 0) :
    ensureInstalled env py (initState oracle) =
      (.ok (), { oracle := oracle, count := 1, trace := [importProbeCmd py] }) ∧
    ∀ c ∈ (ensureInstalled env py (initState oracle)).snd.trace, c = importProbeCmd py := by
  have h := ensureInstalled_probe_ok_eq env py oracle h0
  refine ⟨h, ?_⟩
  rw [h]
  simp

/-- C7 witness: the theorem evaluated on an oracle whose probe exits 0. -/
theorem c7_witness :
    (ensureInstalled envNone "/usr/bin/python3" (initState oracleAllOk) =
      (.ok (), { oracle := oracleAllOk, count := 1,
                 trace := [importProbeCmd "/usr/bin/python3"] })) ∧
    ∀ c ∈ (ensureInstalled envNone "/usr/bin/python3" (initState oracleAllOk)).snd.trace,
      c = importProbeCmd "/usr/bin/python3" :=
  c7_probe_ok_no_install envNone "/usr/bin/python3" oracleAllOk rfl

/-! Claim C4 — install command exits non-zero. -/

/-- Helper: when the probe fails and the install child exits with a
non-zero numeric status, ensureInstalled stops with the wrapping error and
never spawns the re-probe. -/
theorem ensureInstalled_install_fails_eq (env : Env) (py : String)
    (oracle : Nat → SpawnResult) (n : Int)
    (h0 : (oracle 0).status ≠ some 0)
    (h1e : (oracle 1).error = none)
    (h1s : (oracle 1).status = some n) (hn : n ≠ 0) :
    ensureInstalled env py (initState oracle) =
      (.error (.err (py ++ " " ++ joinSpace (pipInstallCmd env py).args ++
          " exited with code " ++ toString n) (some n)),
       { oracle := oracle, count := 2,
         trace := [importProbeCmd py, pipInstallCmd env py] }) := by
  have hb0 : ((oracle 0).status == some 0) = false := beq_eq_false_iff_ne.mpr h0
  simp [ensureInstalled, canImportNotebookMcp, spawnSyncM, runChecked, initState,
    hb0, h1e, h1s, hn, importProbeCmd, pipInstallCmd]

/-- C4: when the probe fails, the install child exits with non-zero status
n, and no spawn error occurred, the Dependency Ensurer fails immediately
with an error carrying the literal command line and n as its exitCode, the
re-probe is skipped (exactly two children were spawned), the backend is
never spawned, and the launcher exits 1 printing that diagnostic. -/
theorem c4_install_failure_fatal (env : Env) (which : String → ProbeResult)
    (be : BackendOutcome) (argv : List String) (oracle : Nat → SpawnResult)
    (py : String) (n : Int)
    (hpy : findPython env which = some py)
    (h0 : (oracle 0).status ≠ some 0)
    (h1e : (oracle 1).error = none)
    (h1s : (oracle 1).status = some n) (hn : n ≠ 0) :
    launch env which be argv (initState oracle) =
      (.error (.err (py ++ " " ++ joinSpace (pipInstallCmd env py).args ++
          " exited with code " ++ toString n) (some n)),
       { oracle := oracle, count := 2,
         trace := [importProbeCmd py, pipInstallCmd env py] },
       none) ∧
    binMain env which be argv (initState oracle) =
      (1, some (py ++ " " ++ joinSpace (pipInstallCmd env py).args ++
          " exited with code " ++ toString n ++ "\n")) := by
  have hE := ensureInstalled_install_fails_eq env py oracle n h0 h1e h1s hn
  have hL := launch_of_ensure_error env which be argv (initState oracle) py _ _ hpy hE
  exact ⟨hL, binMain_of_launch_error env which be argv (initState oracle) _ _ _ hL⟩

/-- C4 witness: probe fails, the install command exits with code 3, the
launcher exits 1 and the diagnostic text contains "exited with code 3". -/
theorem c4_witness :
    (launch envOverride whichNone (.exited (some 0) none) []
        (initState oracleInstallFail3) =
      (.error (.err ("/usr/bin/python3 " ++
          joinSpace (pipInstallCmd envOverride "/usr/bin/python3").args ++
          " exited with code " ++ toString (3 : Int)) (some 3)),
       { oracle := oracleInstallFail3, count := 2,
         trace := [importProbeCmd "/usr/bin/python3",
                   pipInstallCmd envOverride "/usr/bin/python3"] },
       none) ∧
    binMain envOverride whichNone (.exited (some 0) none) []
        (initState oracleInstallFail3) =
      (1, some ("/usr/bin/python3 " ++
          joinSpace (pipInstallCmd envOverride "/usr/bin/python3").args ++
          " exited with code " ++ toString (3 : Int) ++ "\n"))) ∧
    (∃ a b : String,
      "/usr/bin/python3 " ++
          joinSpace (pipInstallCmd envOverride "/usr/bin/python3").args ++
          " exited with code " ++ toString (3 : Int) =
        a ++ "exited with code 3" ++ b) := by
  refine ⟨c4_install_failure_fatal envOverride whichNone (.exited (some 0) none) []
    oracleInstallFail3 "/usr/bin/python3" 3 rfl (by decide) rfl rfl (by decide), ?_⟩
  exact ⟨"/usr/bin/python3 -m pip install -U notebook-mcp ", "", by decide⟩

/-! Claim C5 — backend killed by a signal. -/

/-- C5: if the backend exit event carries a non-empty signal name, launch
rejects with an error whose exitCode is the fixed generic value 1 —
independent of the signal and of the code slot — the error message names
the signal, and the launcher exits 1 writing that message to stderr. -/
theorem c5_signal_termination (env : Env) (which : String → ProbeResult)
    (argv : List String) (oracle : Nat → SpawnResult) (py : String)
    (st' : SpawnState) (code : Option Int) (s : String)
    (hpy : findPython env which = some py)
    (hE : ensureInstalled env py (initState oracle) = (.ok (), st'))
    (hs : s ≠ "") :
    (launch env which (.exited code (some s)) argv (initState oracle)).fst =
      .error (.err ("notebook-mcp exited due to signal " ++ s) (some 1)) ∧
    binMain env which (.exited code (some s)) argv (initState oracle) =
      (1, some ("notebook-mcp exited due to signal " ++ s ++ "\n")) ∧
    (∃ a : String, "notebook-mcp exited due to signal " ++ s = a ++ s) := by
  have hL := launch_of_signal env which argv (initState oracle) py st' code s hpy hE hs
  refine ⟨by rw [hL], ?_, ⟨"notebook-mcp exited due to signal ", rfl⟩⟩
  exact binMain_of_launch_error env which (.exited code (some s)) argv
    (initState oracle) _ _ _ hL

/-- C5 witness: backend killed by SIGKILL after a clean probe; the launcher
exits 1 and the printed message names SIGKILL. -/
theorem c5_witness :
    (launch envOverride whichNone (.exited none (some "SIGKILL")) []
        (initState oracleAllOk)).fst =
      .error (.err ("notebook-mcp exited due to signal " ++ "SIGKILL") (some 1)) ∧
    binMain envOverride whichNone (.exited none (some "SIGKILL")) []
        (initState oracleAllOk) =
      (1, some ("notebook-mcp exited due to signal " ++ "SIGKILL" ++ "\n")) ∧
    (∃ a : String, "notebook-mcp exited due to signal " ++ "SIGKILL" = a ++ "SIGKILL") :=
  c5_signal_termination envOverride whichNone [] oracleAllOk "/usr/bin/python3"
    { oracle := oracleAllOk, count := 1, trace := [importProbeCmd "/usr/bin/python3"] }
    none "SIGKILL" rfl rfl (by decide)

/-! Claim C9 — package still unimportable after a successful install. -/

/-- Helper: when the probe fails and the install child terminates without a
spawn error and without a non-zero numeric status, ensureInstalled spawns
the re-probe and the outcome is decided by the re-probe alone. -/
theorem ensureInstalled_after_install_eq (env : Env) (py : String)
    (oracle : Nat → SpawnResult)
    (h0 : (oracle 0).status ≠ some 0)
    (h1e : (oracle 1).error = none)
    (h1s : (oracle 1).status = some 0 ∨ (oracle 1).status = none) :
    ensureInstalled env py (initState oracle) =
      ((if (oracle 2).status = some 0 then Except.ok ()
        else .error (.err postInstallMsg none)),
       { oracle := oracle, count := 3,
         trace := [importProbeCmd py, pipInstallCmd env py, importProbeCmd py] }) := by
  rcases h1s with h1s | h1s <;> by_cases h2 : (oracle 2).status = some 0 <;>
    simp [ensureInstalled, canImportNotebookMcp, spawnSyncM, runChecked, initState,
      beq_iff_eq, h0, h1e, h1s, h2, importProbeCmd, pipInstallCmd]

/-- C9: when the probe fails, the install child exits 0, and the re-probe
still exits non-zero, the Dependency Ensurer raises the fatal error stating
that the package is still not importable and pointing the operator at
NOTEBOOK_MCP_PYTHON; the backend is never spawned and the launcher exits 1
printing that message. -/
theorem c9_still_unimportable_fatal (env : Env) (which : String → ProbeResult)
    (be : BackendOutcome) (argv : List String) (oracle : Nat → SpawnResult)
    (py : String)
    (hpy : findPython env which = some py)
    (h0 : (oracle 0).status ≠ some 0)
    (h1 : oracle 1 = ⟨none, some 0⟩)
    (h2 : (oracle 2).status ≠ some 0) :
    launch env which be argv (initState oracle) =
      (.error (.err postInstallMsg none),
       { oracle := oracle, count := 3,
         trace := [importProbeCmd py, pipInstallCmd env py, importProbeCmd py] },
       none) ∧
    binMain env which be argv (initState oracle) = (1, some (postInstallMsg ++ "\n")) ∧
    (∃ a b : String, postInstallMsg = a ++ "still not importable" ++ b) ∧
    (∃ a b : String, postInstallMsg = a ++ "NOTEBOOK_MCP_PYTHON" ++ b) := by
  have hE := ensureInstalled_after_install_eq env py oracle h0 (by rw [h1])
    (Or.inl (by rw [h1]))
  rw [if_neg h2] at hE
  have hL := launch_of_ensure_error env which be argv (initState oracle) py _ _ hpy hE
  refine ⟨hL, binMain_of_launch_error env which be argv (initState oracle) _ _ _ hL,
    ?_, ?_⟩
  · exact ⟨"Installed notebook-mcp but it is ",
      ". Check that your Python environment is the one you expect (NOTEBOOK_MCP_PYTHON).",
      by decide⟩
  · exact ⟨"Installed notebook-mcp but it is still not importable. Check that your Python environment is the one you expect (",
      ").", by decide⟩

/-- C9 witness: probe exits 1, install exits 0, re-probe exits 1; the
launcher exits 1 with the post-install diagnostic and no backend spawn. -/
theorem c9_witness :
    launch envOverride whichNone (.exited (some 0) none) []
        (initState oracleInstallOkStillFails) =
      (.error (.err postInstallMsg none),
       { oracle := oracleInstallOkStillFails, count := 3,
         trace := [importProbeCmd "/usr/bin/python3",
                   pipInstallCmd envOverride "/usr/bin/python3",
                   importProbeCmd "/usr/bin/python3"] },
       none) ∧
    binMain envOverride whichNone (.exited (some 0) none) []
        (initState oracleInstallOkStillFails) = (1, some (postInstallMsg ++ "\n")) ∧
    (∃ a b : String, postInstallMsg = a ++ "still not importable" ++ b) ∧
    (∃ a b : String, postInstallMsg = a ++ "NOTEBOOK_MCP_PYTHON" ++ b) :=
  c9_still_unimportable_fatal envOverride whichNone (.exited (some 0) none) []
    oracleInstallOkStillFails "/usr/bin/python3" rfl (by decide) rfl (by decide)

/-! Claim C10 — install child killed by a signal. -/

/-- C10: when the install child produces no numeric status and no spawn
error (spawnSync reports status null, as for a signal kill), runChecked
returns normally, so the Dependency Ensurer treats the install exactly like
a success and proceeds directly to the re-probe: the run spawns all three
children and its outcome is decided by the re-probe alone, so such a
failure can only surface as the post-install unimportable error, never as
an install-command failure. -/
theorem c10_null_install_status_is_success (env : Env) (py : String)
    (oracle : Nat → SpawnResult)
    (h0 : (oracle 0).status ≠ some 0)
    (h1 : oracle 1 = ⟨none, none⟩) :
    (runChecked py (pipInstallCmd env py).args
        { oracle := oracle, count := 1, trace := [importProbeCmd py] }).fst = .ok () ∧
    ensureInstalled env py (initState oracle) =
      ((if (oracle 2).status = some 0 then Except.ok ()
        else .error (.err postInstallMsg none)),
       { oracle := oracle, count := 3,
         trace := [importProbeCmd py, pipInstallCmd env py, importProbeCmd py] }) := by
  constructor
  · simp [runChecked, spawnSyncM, h1]
  · exact ensureInstalled_after_install_eq env py oracle h0 (by rw [h1])
      (Or.inr (by rw [h1]))

/-- C10 witness: probe exits 1, install is killed (null status), re-probe
exits 1; the run ends in the post-install error after all three spawns. -/
theorem c10_witness :
    (runChecked "/usr/bin/python3" (pipInstallCmd envOverride "/usr/bin/python3").args
        { oracle := oracleInstallKilled, count := 1,
          trace := [importProbeCmd "/usr/bin/python3"] }).fst = .ok () ∧
    ensureInstalled envOverride "/usr/bin/python3" (initState oracleInstallKilled) =
      ((if (oracleInstallKilled 2).status = some 0 then Except.ok ()
        else .error (.err postInstallMsg none)),
       { oracle := oracleInstallKilled, count := 3,
         trace := [importProbeCmd "/usr/bin/python3",
                   pipInstallCmd envOverride "/usr/bin/python3",
                   importProbeCmd "/usr/bin/python3"] }) :=
  c10_null_install_status_is_success envOverride "/usr/bin/python3" oracleInstallKilled
    (by decide) rfl

/-! Claim C3 — shape of the install command. -/

/-- C3 counterexample: with NOTEBOOK_MCP_PIP_ARGS set to "a\tb" (a tab
between two words) and an install needed, the code passes the single token
"a\tb" through to pip, while the claim's whitespace-splitting reading
produces the two tokens "a" and "b": the claim as stated fails on any
extra-argument string whose tokens are separated by whitespace other than
the space character. -/
theorem c3_counterexample :
    (ensureInstalled envTab "/usr/bin/python3" (initState oracleProbeFail)).snd.trace =
      [importProbeCmd "/usr/bin/python3",
       ⟨"/usr/bin/python3", ["-m", "pip", "install", "-U", "notebook-mcp", "a\tb"]⟩,
       importProbeCmd "/usr/bin/python3"] ∧
    splitPipArgsSpecReading "a\tb" = ["a", "b"] ∧
    (["-m", "pip", "install", "-U", "notebook-mcp", "a\tb"] : List String) ≠
      ["-m", "pip", "install", "-U", "notebook-mcp"] ++ splitPipArgsSpecReading "a\tb" := by
  refine ⟨rfl, rfl, by decide⟩

/-- C3 (amended): when an install is needed, the Dependency Ensurer invokes
the resolved interpreter with -m pip install -U, the configured package
spec (NOTEBOOK_MCP_PIP_SPEC, defaulting to notebook-mcp), followed by
NOTEBOOK_MCP_PIP_ARGS split on the space character with empty tokens
discarded and otherwise appended verbatim, in order. -/
theorem c3_install_command_shape (env : Env) (py : String)
    (oracle : Nat → SpawnResult) (h0 : (oracle 0).status ≠ some 0) :
    ∃ rest : List Cmd,
      (ensureInstalled env py (initState oracle)).snd.trace =
        importProbeCmd py ::
          (⟨py, ["-m", "pip", "install", "-U",
              envOrDefault env "NOTEBOOK_MCP_PIP_SPEC" "notebook-mcp"] ++
            splitPipArgs (envOrDefault env "NOTEBOOK_MCP_PIP_ARGS" "")⟩ : Cmd) :: rest := by
  cases h1e : (oracle 1).error with
  | some e =>
    exact ⟨[], by simp [ensureInstalled, canImportNotebookMcp, spawnSyncM, runChecked,
      initState, beq_iff_eq, h0, h1e, importProbeCmd]⟩
  | none =>
    cases h1s : (oracle 1).status with
    | none =>
      cases h2 : (oracle 2).status == some 0 with
      | true =>
        exact ⟨[importProbeCmd py], by simp [ensureInstalled, canImportNotebookMcp,
          spawnSyncM, runChecked, initState, beq_iff_eq, h0, h1e, h1s, h2, importProbeCmd]⟩
      | false =>
        exact ⟨[importProbeCmd py], by simp [ensureInstalled, canImportNotebookMcp,
          spawnSyncM, runChecked, initState, beq_iff_eq, h0, h1e, h1s, h2, importProbeCmd]⟩
    | some n =>
      by_cases hn : n = 0
      · subst hn
        cases h2 : (oracle 2).status == some 0 with
        | true =>
          exact ⟨[importProbeCmd py], by simp [ensureInstalled, canImportNotebookMcp,
            spawnSyncM, runChecked, initState, beq_iff_eq, h0, h1e, h1s, h2, importProbeCmd]⟩
        | false =>
          exact ⟨[importProbeCmd py], by simp [ensureInstalled, canImportNotebookMcp,
            spawnSyncM, runChecked, initState, beq_iff_eq, h0, h1e, h1s, h2, importProbeCmd]⟩
      · exact ⟨[], by simp [ensureInstalled, canImportNotebookMcp, spawnSyncM, runChecked,
          initState, beq_iff_eq, h0, h1e, h1s, hn, importProbeCmd]⟩

/-- C3 witness: with a custom package spec and extra arguments separated by
runs of spaces, the spawned install command names the custom spec and the
two argument tokens in order with the empty tokens dropped. -/
theorem c3_witness :
    ∃ rest : List Cmd,
      (ensureInstalled envPipCfg "/usr/bin/python3" (initState oracleProbeFail)).snd.trace =
        importProbeCmd "/usr/bin/python3" ::
          (⟨"/usr/bin/python3",
            ["-m", "pip", "install", "-U", "custom-pkg==1.2", "--no-cache-dir", "--quiet"]⟩ :
            Cmd) :: rest :=
  c3_install_command_shape envPipCfg "/usr/bin/python3" oracleProbeFail (by decide)

end NotebookMcp
